import Mathlib

/-!
Verification development for the PayEasy rent-escrow system.

The repository's source tree contains the conversations API route
(`GET /api/conversations`), which is embedded below from the TypeScript
source.  The Escrow & Reconciliation Engine described by the design
document is not present in the source tree, so its data model and
operations are modelled from the specification text; each such
definition carries a doc comment starting `Modelled from the spec:`.
-/

namespace PayEasy

/- ------------------------------------------------------------------
   Escrow contract state machine (spec §4.1)
   ------------------------------------------------------------------ -/

/-- Modelled from the spec: `EscrowContract.status` values
`Uninitialized → Active → Settled` and `Active → Disputed` (§4.1). -/
inductive ContractStatus
  | uninitialized
  | active
  | settled
  | disputed
deriving DecidableEq, Repr

/-- Modelled from the spec: the error taxonomy of §7 restricted to the
escrow contract calls (`AlreadyInitialized`, `Unauthorized`,
`InvalidAmount`, plus a state-machine rejection for calls made outside
the `Active` state). -/
inductive EscrowError
  | alreadyInitialized
  | unauthorized
  | invalidAmount
  | invalidState
deriving DecidableEq, Repr

/-- Modelled from the spec: the on-ledger program instance holding one
agreement's custodial balance (§2, §4.1): landlord, tenant list,
rent amount (smallest currency unit) and the tracked balance. -/
structure EscrowContract where
  status : ContractStatus
  landlord : String
  tenants : List String
  rent_amount : Int
  balance : Int
deriving DecidableEq, Repr

/-- Modelled from the spec: a contract instance before `initialize`
is called (state `Uninitialized`, empty configuration). -/
def freshContract : EscrowContract :=
  { status := .uninitialized, landlord := "", tenants := [], rent_amount := 0, balance := 0 }

/-- Modelled from the spec: `initialize(landlord, tenants, rent_amount)`
is callable once; calling it again fails with `AlreadyInitialized`
(§4.1).  Errors leave the contract unchanged. -/
def initEscrow (c : EscrowContract) (landlord : String) (tenants : List String)
    (rent : Int) : Option EscrowError × EscrowContract :=
  if c.status = .uninitialized then
    (none, { c with status := .active, landlord := landlord, tenants := tenants,
                    rent_amount := rent })
  else
    (some .alreadyInitialized, c)

/-- Modelled from the spec: `deposit(payer, amount)` is callable only
while `Active`; rejects if `payer ∉ tenants` (`Unauthorized`) or
`amount ≤ 0` (`InvalidAmount`); otherwise increases the tracked
balance (§4.1).  Errors leave the contract unchanged. -/
def deposit (c : EscrowContract) (payer : String) (amount : Int) :
    Option EscrowError × EscrowContract :=
  if c.status ≠ .active then
    (some .invalidState, c)
  else if payer ∉ c.tenants then
    (some .unauthorized, c)
  else if amount ≤ 0 then
    (some .invalidAmount, c)
  else
    (none, { c with balance := c.balance + amount })

/-- Modelled from the spec: `withdraw()` is callable only by the
landlord while `Active`, transfers the full current balance and
resets it to zero (§4.1).  The middle component is the transferred
amount; errors transfer nothing and leave the contract unchanged. -/
def withdraw (c : EscrowContract) (caller : String) :
    Option EscrowError × Int × EscrowContract :=
  if c.status ≠ .active then
    (some .invalidState, 0, c)
  else if caller ≠ c.landlord then
    (some .unauthorized, 0, c)
  else
    (none, c.balance, { c with balance := 0 })

/-- Modelled from the spec: `get_balance()` is a pure read (§4.1). -/
def get_balance (c : EscrowContract) : Int := c.balance

/-- Modelled from the spec: `get_status()` is a pure read (§4.1). -/
def get_status (c : EscrowContract) : ContractStatus := c.status

/- ------------------------------------------------------------------
   PaymentLedger: records and the monotonic transition table (§3, §4.2)
   ------------------------------------------------------------------ -/

/-- Modelled from the spec: `PaymentRecord.status`
∈ {pending, submitted, confirmed, failed} (§3). -/
inductive PayStatus
  | pending
  | submitted
  | confirmed
  | failed
deriving DecidableEq, Repr

/-- Modelled from the spec: `confirmed` and `failed` are the terminal
record states (§3, §8). -/
def PayStatus.isTerminal : PayStatus → Bool
  | .confirmed => true
  | .failed => true
  | _ => false

/-- Position of a status along the monotonic order
`pending → submitted → {confirmed | failed}` (§3); both terminal
states share the top rank. -/
def statusRank : PayStatus → Nat
  | .pending => 0
  | .submitted => 1
  | .confirmed => 2
  | .failed => 2

/-- Modelled from the spec: the monotonic transition table (§3, §4.2):
`pending → submitted`, `submitted → confirmed`, `submitted → failed`,
and the direct `pending → failed` taken on a fatal submission
rejection (§4.3 step 2).  No transition leaves a terminal state. -/
def allowedTransition : PayStatus → PayStatus → Bool
  | .pending, .submitted => true
  | .pending, .failed => true
  | .submitted, .confirmed => true
  | .submitted, .failed => true
  | _, _ => false

/-- Modelled from the spec: `direction` ∈ {deposit, withdrawal},
a closed tagged variant (§3, §9). -/
inductive Direction
  | deposit
  | withdrawal
deriving DecidableEq, Repr

/-- Modelled from the spec: one attempted transfer (§3): identifiers,
direction, amount, lifecycle status, ledger submission reference and
attempt counter, plus the audit timestamps. -/
structure PaymentRecord where
  record_id : Nat
  agreement_id : Nat
  payer_id : String
  direction : Direction
  amount : Int
  status : PayStatus
  submission_ref : Option String
  attempt_count : Nat
  created_at : Nat
  last_checked_at : Option Nat
  confirmed_at : Option Nat
deriving DecidableEq, Repr

/-- Modelled from the spec: the PaymentLedger error cases surfaced by
§4.2 and §4.3 (`InvalidTransition`, an unknown record id, and the
bounded retry cap of §4.3 step 4). -/
inductive LedgerError
  | notFound
  | invalidTransition
  | retryCapExceeded
deriving DecidableEq, Repr

/-- Modelled from the spec: `MAX_ATTEMPTS` (e.g., 5), the bounded
retry cap (§4.3 step 4, §8). -/
def MAX_ATTEMPTS : Nat := 5

/-- Look a record up by `record_id` in the local durable store. -/
def findRecord (l : List PaymentRecord) (rid : Nat) : Option PaymentRecord :=
  l.find? (fun r => r.record_id == rid)

/-- Modelled from the spec: `transition(record_id, new_status, ...)`
enforces the monotonic transition table; any attempt to move a record
along a non-table edge — in particular any attempt to move a terminal
record — fails with `InvalidTransition` and changes nothing (§4.2). -/
def transition (l : List PaymentRecord) (rid : Nat) (ns : PayStatus) :
    Option LedgerError × List PaymentRecord :=
  match findRecord l rid with
  | none => (some .notFound, l)
  | some r =>
    if allowedTransition r.status ns then
      (none, l.map fun q => if q.record_id = rid then { q with status := ns } else q)
    else
      (some .invalidTransition, l)

/-- Modelled from the spec: a retry of a `failed` record is realized
only as a *new* `pending` record appended to the store, with a fresh
id, an incremented `attempt_count` and a cleared `submission_ref`;
records are never deleted, only superseded (§3, §4.3 step 4).  The
cap `MAX_ATTEMPTS` bounds the chain. -/
def spawnRetry (l : List PaymentRecord) (rid : Nat) (newId : Nat) :
    Option LedgerError × List PaymentRecord :=
  match findRecord l rid with
  | none => (some .notFound, l)
  | some r =>
    if r.status = .failed ∧ r.attempt_count < MAX_ATTEMPTS then
      let fresh := { r with record_id := newId, status := PayStatus.pending,
                            attempt_count := r.attempt_count + 1, submission_ref := none }
      (none, l ++ [fresh])
    else
      (some .retryCapExceeded, l)

/- ------------------------------------------------------------------
   Retry policy per logical payment attempt chain (§4.3 step 4, §8)
   ------------------------------------------------------------------ -/

/-- Modelled from the spec: the per-chain retry bookkeeping of §4.3
step 4 — the strictly increasing attempt counter of the chain (§3)
and the `needs_review` flag raised when the cap is exceeded (§7, §8). -/
structure RetryChain where
  attempts : Nat
  needs_review : Bool
deriving DecidableEq, Repr

/-- Modelled from the spec: a chain starts with the original `pending`
record as attempt 1 (`attempt_count` strictly increasing per logical
payment attempt chain, §3). -/
def initialChain : RetryChain := { attempts := 1, needs_review := false }

/-- Modelled from the spec: reaction to a retryable failure (§4.3
step 4): below `MAX_ATTEMPTS` a fresh `pending` record is spawned
(the counter increases); at the cap the Agreement is flagged
`needs_review`; a flagged chain is never retried again. -/
def onRetryableFailure (c : RetryChain) : RetryChain :=
  if c.needs_review then c
  else if c.attempts < MAX_ATTEMPTS then
    { attempts := c.attempts + 1, needs_review := false }
  else
    { c with needs_review := true }

/- ------------------------------------------------------------------
   Reconciliation leases (§3, §4.3 steps 1 and 5, §5)
   ------------------------------------------------------------------ -/

/-- Modelled from the spec: the ephemeral ownership token (§3):
`record_id`, `holder_id`, `expires_at`. -/
structure ReconciliationLease where
  record_id : Nat
  holder_id : Nat
  expires_at : Nat
deriving DecidableEq, Repr

/-- Modelled from the spec: the shared lease store together with the
current instant (leases are time-bounded, §4.3 step 1). -/
structure LeaseState where
  now : Nat
  leases : List ReconciliationLease
deriving DecidableEq, Repr

/-- A lease is live at an instant iff it has not yet expired. -/
def liveAt (now : Nat) (l : ReconciliationLease) : Prop := now < l.expires_at

instance (now : Nat) (l : ReconciliationLease) : Decidable (liveAt now l) :=
  inferInstanceAs (Decidable (now < l.expires_at))

/-- Modelled from the spec: the lease-acquisition/release step
relation (§4.3 steps 1 and 5, §5): a worker acquires a lease only
when no unexpired lease exists for the record (otherwise it skips),
the new lease expires after a positive TTL; a holder may release its
lease; and time passes (expiry needs no action: leases are
time-bounded rather than held). -/
inductive LeaseStep : LeaseState → LeaseState → Prop
  | acquire (s : LeaseState) (rid holder ttl : Nat) (httl : 0 < ttl)
      (hfree : ∀ l ∈ s.leases, l.record_id = rid → l.expires_at ≤ s.now) :
      LeaseStep s ⟨s.now, ⟨rid, holder, s.now + ttl⟩ :: s.leases⟩
  | release (s : LeaseState) (rid holder : Nat) :
      LeaseStep s ⟨s.now, s.leases.filter
        (fun l => !(l.record_id == rid && l.holder_id == holder))⟩
  | tick (s : LeaseState) (dt : Nat) :
      LeaseStep s ⟨s.now + dt, s.leases⟩

/-- The initial lease store: no leases, clock at zero. -/
def initLeaseState : LeaseState := ⟨0, []⟩

/-- At most one live lease per `record_id` (invariant of §3). -/
def leaseExclusive (s : LeaseState) : Prop :=
  s.leases.Pairwise
    (fun a b => a.record_id = b.record_id → ¬(liveAt s.now a ∧ liveAt s.now b))

/- ------------------------------------------------------------------
   Confirmed balance arithmetic (§3 invariants, §8)
   ------------------------------------------------------------------ -/

/-- Modelled from the spec: the signed contribution of one record to
an agreement's balance — deposits count positively, withdrawals
negatively (§3 invariants). -/
def signedAmount (r : PaymentRecord) : Int :=
  match r.direction with
  | .deposit => r.amount
  | .withdrawal => -r.amount

/-- Whether a record is a confirmed record of the given agreement. -/
def isConfirmedFor (aid : Nat) (r : PaymentRecord) : Bool :=
  r.agreement_id == aid && r.status == PayStatus.confirmed

/-- Modelled from the spec: the agreement balance obtained by applying
the confirmed records in their arrival order, starting from zero
(§3 invariants, §8). -/
def confirmedBalance (aid : Nat) (l : List PaymentRecord) : Int :=
  (l.filter (isConfirmedFor aid)).foldl (fun b r => b + signedAmount r) 0

/-- Sum of the confirmed deposit amounts of an agreement. -/
def sumConfirmedDeposits (aid : Nat) (l : List PaymentRecord) : Int :=
  ((l.filter (fun r => isConfirmedFor aid r && r.direction == Direction.deposit)).map
    (fun r => r.amount)).sum

/-- Sum of the confirmed withdrawal amounts of an agreement. -/
def sumConfirmedWithdrawals (aid : Nat) (l : List PaymentRecord) : Int :=
  ((l.filter (fun r => isConfirmedFor aid r && r.direction == Direction.withdrawal)).map
    (fun r => r.amount)).sum

/- ------------------------------------------------------------------
   Conversations API: GET /api/conversations (src/unnamed/part_000)
   ------------------------------------------------------------------ -/

/-- Row of the `messages` table; `read_at` and `deleted_at` are
nullable timestamp columns (lines 58-72 of the route). -/
structure MessageRow where
  conversation_id : Nat
  sender_id : String
  content : String
  created_at : Nat
  read_at : Option Nat
  deleted_at : Option Nat
deriving DecidableEq, Repr

/-- Row of the `conversation_participants` table (lines 25-28,
75-82). -/
structure ParticipantRow where
  id : Nat
  conversation_id : Nat
  user_id : String
deriving DecidableEq, Repr

/-- Row of the `conversations` table (lines 42-47). -/
structure ConversationRow where
  id : Nat
  created_at : Nat
  updated_at : Nat
deriving DecidableEq, Repr

/-- Row of the joined `users` relation (lines 77-81). -/
structure UserRow where
  id : String
  username : Option String
  avatar_url : Option String
deriving DecidableEq, Repr

/-- The queried database state.  Backend query failures (the
`partError`/`convError` branches) are not modelled: the store always
answers. -/
structure Db where
  conversation_participants : List ParticipantRow
  conversations : List ConversationRow
  messages : List MessageRow
  users : List UserRow
deriving DecidableEq, Repr

/-- SQL three-valued equality as issued by `.eq(column, value)`:
a row matches only when both the column value and the literal are
non-null and equal.  Comparing against a null literal therefore
never matches (an IS NULL test would need `.is(column, null)`,
as the route itself uses for `deleted_at`). -/
def sqlEq {α : Type} [BEq α] : Option α → Option α → Bool
  | some a, some b => a == b
  | _, _ => false

/-- Numeric value of the leading decimal-digit run, `none` when the
run is empty. -/
def leadingDigitsVal (cs : List Char) : Option Nat :=
  match cs.takeWhile (fun c => c.isDigit) with
  | [] => none
  | ds => some (ds.foldl (fun n c => n * 10 + (c.toNat - 48)) 0)

/-- JavaScript `parseInt(s, 10)`: skip leading whitespace, read an
optional sign and then the longest digit run; `none` models `NaN`
(no digits). -/
def jsParseInt10 (s : String) : Option Int :=
  let cs := s.toList.dropWhile (fun c => c == ' ' || c == '\t' || c == '\n' || c == '\r')
  match cs with
  | '-' :: rest => (leadingDigitsVal rest).map (fun n => -(n : Int))
  | '+' :: rest => (leadingDigitsVal rest).map (fun n => (n : Int))
  | _ => (leadingDigitsVal cs).map (fun n => (n : Int))

/-- Embeds lines 16-17:
`const limit = limitParams ? parseInt(limitParams, 10) : 50;`.
`searchParams.get` yields null (`none`) for an absent parameter; the
empty string is falsy in JavaScript, so a present-but-empty parameter
also selects the default 50.  `none` in the result models `NaN`. -/
def limitOfCode (p : Option String) : Option Int :=
  match p with
  | none => some 50
  | some s => if s = "" then some 50 else jsParseInt10 s

/-- Follows the words of claim C10 (refinement comparison only): the
limit "is parseInt of the request's limit query parameter in base 10
when present, and 50 when absent". -/
def limitOfClaim (p : Option String) : Option Int :=
  match p with
  | none => some 50
  | some s => jsParseInt10 s

/-- The `last_message` part of a preview (lines 58-64, 97). -/
structure LastMessage where
  content : String
  sender_id : String
  created_at : Nat
deriving DecidableEq, Repr

/-- A formatted participant (lines 84-89). -/
structure PreviewParticipant where
  id : Nat
  user_id : String
  username : Option String
  avatar_url : Option String
deriving DecidableEq, Repr

/-- The `other_user` part of a preview (lines 100-103). -/
structure OtherUser where
  username : String
  avatar_url : String
deriving DecidableEq, Repr

/-- One `ConversationPreview` of the response (lines 93-104). -/
structure ConversationPreview where
  id : Nat
  created_at : Nat
  updated_at : Nat
  last_message : Option LastMessage
  participants : List PreviewParticipant
  unread_count : Nat
  other_user : Option OtherUser
deriving DecidableEq, Repr

/-- `successResponse` / `errorResponse` of the route's `api-utils`. -/
inductive ApiResponse (α : Type) where
  | success (data : α)
  | error (message : String) (status : Nat) (code : String)
deriving DecidableEq, Repr

/-- Newest-first order on messages (`created_at DESC`, line 63). -/
def byCreatedDesc (a b : MessageRow) : Prop := b.created_at ≤ a.created_at

instance : DecidableRel byCreatedDesc := fun a b => Nat.decLe b.created_at a.created_at

instance : IsTotal MessageRow byCreatedDesc :=
  ⟨fun a b => Nat.le_total b.created_at a.created_at⟩

instance : IsTrans MessageRow byCreatedDesc :=
  ⟨fun _ _ _ hab hbc => le_trans hbc hab⟩

/-- Most-recent-activity order on conversations
(`updated_at DESC`, line 46). -/
def byUpdatedDesc (a b : ConversationRow) : Prop := b.updated_at ≤ a.updated_at

instance : DecidableRel byUpdatedDesc := fun a b => Nat.decLe b.updated_at a.updated_at

instance : IsTotal ConversationRow byUpdatedDesc :=
  ⟨fun a b => Nat.le_total b.updated_at a.updated_at⟩

instance : IsTrans ConversationRow byUpdatedDesc :=
  ⟨fun _ _ _ hab hbc => le_trans hbc hab⟩

/-- Lines 58-64: the last non-deleted message of a conversation:
filter by conversation and `deleted_at IS NULL`, order by
`created_at` descending, limit 1. -/
def lastMessageQuery (db : Db) (convId : Nat) : Option LastMessage :=
  let sorted := List.insertionSort byCreatedDesc
    (db.messages.filter (fun m => m.conversation_id == convId && m.deleted_at.isNone))
  ((sorted.take 1).head?).map
    (fun m => { content := m.content, sender_id := m.sender_id, created_at := m.created_at })

/-- Lines 67-72: the unread count: `.eq("conversation_id", convId)`,
`.eq("read_at", null)` — SQL equality against null, not an IS NULL
test — and `.neq("sender_id", userId)`, with an exact count.  The
client-side count is nullable, modelled as `some` of the matching
row count. -/
def unreadCountQuery (db : Db) (convId : Nat) (userId : String) : Option Nat :=
  some (db.messages.filter (fun m =>
    m.conversation_id == convId && sqlEq m.read_at none && m.sender_id != userId)).length

/-- Lines 75-89: all participants of a conversation joined with their
user profile. -/
def participantsQuery (db : Db) (convId : Nat) : List PreviewParticipant :=
  (db.conversation_participants.filter (fun p => p.conversation_id == convId)).map
    (fun p =>
      match db.users.find? (fun u => u.id == p.user_id) with
      | some u => { id := p.id, user_id := p.user_id, username := u.username,
                    avatar_url := u.avatar_url }
      | none => { id := p.id, user_id := p.user_id, username := none, avatar_url := none })

/-- JavaScript `x || d` on a nullable string: null and the empty
string are falsy (lines 101-102). -/
def jsOrDefault (v : Option String) (d : String) : String :=
  match v with
  | some s => if s = "" then d else s
  | none => d

/-- Lines 93-104: one enriched conversation preview, including the
`unreadCount ?? 0` coalescing of line 99. -/
def buildPreview (db : Db) (userId : String) (conv : ConversationRow) : ConversationPreview :=
  let formatted := participantsQuery db conv.id
  let otherParticipant := formatted.find? (fun p => p.user_id != userId)
  { id := conv.id, created_at := conv.created_at, updated_at := conv.updated_at,
    last_message := lastMessageQuery db conv.id,
    participants := formatted,
    unread_count := (unreadCountQuery db conv.id userId).getD 0,
    other_user := otherParticipant.map (fun p =>
      { username := jsOrDefault p.username "Unknown User",
        avatar_url := jsOrDefault p.avatar_url "" }) }

/-- `.limit(n)` of line 47.  A `NaN` limit (failed parse, `none`) is
outside the modelled behavior; the theorems about the limit assume a
parsed value. -/
def applyLimit {α : Type} (lim : Option Int) (l : List α) : List α :=
  match lim with
  | some n => l.take n.toNat
  | none => l

/-- Lines 42-47: conversations whose id is among the user's
participations, ordered by `updated_at` descending, limited. -/
def conversationsQuery (db : Db) (ids : List Nat) (lim : Option Int) : List ConversationRow :=
  applyLimit lim
    (List.insertionSort byUpdatedDesc (db.conversations.filter (fun c => ids.contains c.id)))

/-- Embeds the route handler `GET` of `GET /api/conversations`
(src/unnamed/part_000).  Inputs: the result of `getUserId(request)`,
the raw `limit` query parameter, and the database.  Output: the
response plus the trace of tables queried, in order (used to state
that the unauthenticated path queries nothing). -/
def GETConversations (userId? : Option String) (limitParam : Option String) (db : Db) :
    ApiResponse (List ConversationPreview) × List String :=
  let lim := limitOfCode limitParam
  match userId? with
  | none => (.error "Authentication required." 401 "UNAUTHORIZED", [])
  | some userId =>
    let participations := db.conversation_participants.filter (fun p => p.user_id == userId)
    if participations.isEmpty then
      (.success [], ["conversation_participants"])
    else
      let conversationIds := participations.map (fun p => p.conversation_id)
      let convs := conversationsQuery db conversationIds lim
      let previews := convs.map (buildPreview db userId)
      (.success previews,
        ["conversation_participants", "conversations"] ++
          convs.flatMap (fun _ => ["messages", "messages", "conversation_participants"]))

/-- The preview list carried by a response (empty for errors). -/
def previewsOf (r : ApiResponse (List ConversationPreview)) : List ConversationPreview :=
  match r with
  | .success l => l
  | .error _ _ _ => []

/- ------------------------------------------------------------------
   Concrete instances used by witnesses
   ------------------------------------------------------------------ -/

/-- A concrete database for the API witnesses: alice and bob share
conversation 10, bob has sent a message alice has not read
(`read_at` null). -/
def dbW : Db :=
  { conversation_participants := [⟨1, 10, "alice"⟩, ⟨2, 10, "bob"⟩],
    conversations := [⟨10, 0, 5⟩],
    messages := [⟨10, "bob", "hi", 3, none, none⟩],
    users := [⟨"alice", some "Alice", none⟩, ⟨"bob", some "Bob", some "b.png"⟩] }

/-- The concrete §8 scenario contract: a fresh contract initialized
with landlord `"landlord"`, one tenant `"tenant"`, rent 1000. -/
def scenarioContract : EscrowContract :=
  (initEscrow freshContract "landlord" ["tenant"] 1000).2

/-- A concrete terminal (confirmed) record used by the C1 witness. -/
def confirmedRecordW : PaymentRecord :=
  { record_id := 1, agreement_id := 1, payer_id := "tenant", direction := .deposit,
    amount := 1000, status := .confirmed, submission_ref := some "tx1",
    attempt_count := 1, created_at := 0, last_checked_at := none,
    confirmed_at := some 10 }

/-- A concrete record that exhausted the retry cap, for the C4
witness. -/
def exhaustedRecordW : PaymentRecord :=
  { record_id := 2, agreement_id := 1, payer_id := "tenant", direction := .deposit,
    amount := 1000, status := .failed, submission_ref := none,
    attempt_count := 5, created_at := 0, last_checked_at := some 3,
    confirmed_at := none }

/-- A concrete confirmed withdrawal record used by the C3 witness. -/
def withdrawRecordW : PaymentRecord :=
  { record_id := 3, agreement_id := 1, payer_id := "landlord", direction := .withdrawal,
    amount := 400, status := .confirmed, submission_ref := some "tx2",
    attempt_count := 1, created_at := 5, last_checked_at := none,
    confirmed_at := some 20 }

/-- A concrete lease on record 1 held by worker 7, expired by time
100; used by the C2 witness. -/
def leaseW1 : ReconciliationLease := ⟨1, 7, 60⟩

/-- A concrete lease on record 1 held by worker 8, acquired at time
100 after `leaseW1` expired; used by the C2 witness. -/
def leaseW2 : ReconciliationLease := ⟨1, 8, 160⟩

/-- A concrete reachable lease store holding `leaseW2` (live) and
`leaseW1` (expired) at time 100; used by the C2 witness. -/
def leaseStateW : LeaseState := ⟨100, [leaseW2, leaseW1]⟩

end PayEasy

namespace PayEasy

/-- C7: `initialize` succeeds at most once: a first call on an
`Uninitialized` contract succeeds (making the contract `Active`), and
every subsequent call, whatever its arguments, fails with
`AlreadyInitialized` while leaving the contract unchanged. -/
theorem initialize_at_most_once (c : EscrowContract) (l : String)
    (ts : List String) (r : Int) (h : c.status = .uninitialized) :
    (initEscrow c l ts r).1 = none ∧
    ((initEscrow c l ts r).2).status = .active ∧
    ∀ l₂ ts₂ r₂,
      initEscrow ((initEscrow c l ts r).2) l₂ ts₂ r₂ =
        (some .alreadyInitialized, (initEscrow c l ts r).2) := by
  simp [initEscrow, h]

/-- Witness for C7 at a concrete contract. -/
theorem initialize_at_most_once_witness :
    freshContract.status = .uninitialized ∧
    ((initEscrow freshContract "landlord" ["t1"] 1000).1 = none ∧
     ((initEscrow freshContract "landlord" ["t1"] 1000).2).status = .active ∧
     ∀ l₂ ts₂ r₂,
       initEscrow ((initEscrow freshContract "landlord" ["t1"] 1000).2) l₂ ts₂ r₂ =
         (some .alreadyInitialized, (initEscrow freshContract "landlord" ["t1"] 1000).2)) :=
  ⟨rfl, initialize_at_most_once freshContract "landlord" ["t1"] 1000 rfl⟩

/-- C5: `deposit` checks, in order: the contract must be `Active`
(otherwise the call fails), the payer must be a tenant (otherwise
`Unauthorized`), the amount must be positive (otherwise
`InvalidAmount`); and every failing call leaves the tracked balance
and the whole contract state unchanged. -/
theorem deposit_error_handling (c : EscrowContract) (payer : String) (amount : Int) :
    (c.status ≠ .active → (deposit c payer amount).1.isSome ∧ (deposit c payer amount).2 = c) ∧
    (c.status = .active → payer ∉ c.tenants →
      deposit c payer amount = (some .unauthorized, c)) ∧
    (c.status = .active → payer ∈ c.tenants → amount ≤ 0 →
      deposit c payer amount = (some .invalidAmount, c)) ∧
    ((deposit c payer amount).1.isSome → (deposit c payer amount).2 = c) := by
  refine ⟨?_, ?_, ?_, ?_⟩
  · intro h
    simp [deposit, h]
  · intro h hp
    simp [deposit, h, hp]
  · intro h hp ha
    simp [deposit, h, hp, ha]
  · intro h
    by_cases hs : c.status = .active
    · by_cases hp : payer ∈ c.tenants
      · by_cases ha : amount ≤ 0
        · simp [deposit, hs, hp, ha]
        · simp [deposit, hs, hp, ha] at h
      · simp [deposit, hs, hp]
    · simp [deposit, hs]

/-- Witness for C5 at a concrete contract: a fresh (non-`Active`)
contract rejects a deposit and is left unchanged. -/
theorem deposit_error_handling_witness :
    freshContract.status ≠ ContractStatus.active ∧
    (deposit freshContract "t1" 5).1.isSome ∧ (deposit freshContract "t1" 5).2 = freshContract :=
  ⟨by decide, (deposit_error_handling freshContract "t1" 5).1 (by decide)⟩

/-- C6: on any `Active` contract, `withdraw` called by the landlord
succeeds, transfers exactly the full current balance and leaves the
tracked balance at zero; concretely, after one deposit of 1000 on a
freshly initialized contract, `get_balance` returns 1000 and after
`withdraw` it returns 0. -/
theorem withdraw_full_balance (c : EscrowContract) (h : c.status = .active) :
    ((withdraw c c.landlord).1 = none ∧
     (withdraw c c.landlord).2.1 = get_balance c ∧
     get_balance (withdraw c c.landlord).2.2 = 0) ∧
    (get_balance (deposit scenarioContract "tenant" 1000).2 = 1000 ∧
     get_balance (withdraw (deposit scenarioContract "tenant" 1000).2 "landlord").2.2 = 0) := by
  constructor
  · simp [withdraw, h, get_balance]
  · constructor <;> decide

/-- C1: payment-record status changes respect the monotonic order
`pending → submitted → {confirmed | failed}` (every table edge
strictly increases the rank along that order), no transition leaves a
terminal state, the `transition` operation rejects any move of a
terminal record with `InvalidTransition` leaving the store unchanged,
and a retry never mutates an existing record: it only appends fresh
`pending` records. -/
theorem record_status_monotonic :
    (∀ s t, allowedTransition s t = true → statusRank s < statusRank t) ∧
    (∀ s t, s.isTerminal = true → allowedTransition s t = false) ∧
    (∀ l rid ns r, findRecord l rid = some r → r.status.isTerminal = true →
      transition l rid ns = (some .invalidTransition, l)) ∧
    (∀ l rid newId, ∃ tail, (spawnRetry l rid newId).2 = l ++ tail ∧
      ∀ q ∈ tail, q.status = PayStatus.pending) := by
  refine ⟨?_, ?_, ?_, ?_⟩
  · intro s t
    cases s <;> cases t <;> decide
  · intro s t
    cases s <;> cases t <;> decide
  · intro l rid ns r hf ht
    have hA : allowedTransition r.status ns = false := by
      cases hrs : r.status <;> simp [PayStatus.isTerminal, hrs] at ht ⊢ <;>
        cases ns <;> rfl
    simp [transition, hf, hA]
  · intro l rid newId
    unfold spawnRetry
    cases h : findRecord l rid with
    | none => exact ⟨[], by simp⟩
    | some r =>
      by_cases hc : r.status = PayStatus.failed ∧ r.attempt_count < MAX_ATTEMPTS
      · exact ⟨[{ r with record_id := newId, status := PayStatus.pending, attempt_count := r.attempt_count + 1, submission_ref := none }], by simp [hc]⟩
      · exact ⟨[], by simp [hc]⟩

/-- Witness for C1: moving a concrete confirmed record is rejected
with `InvalidTransition` and the store is unchanged. -/
theorem record_status_monotonic_witness :
    findRecord [confirmedRecordW] 1 = some confirmedRecordW ∧
    confirmedRecordW.status.isTerminal = true ∧
    transition [confirmedRecordW] 1 PayStatus.pending =
      (some LedgerError.invalidTransition, [confirmedRecordW]) :=
  ⟨rfl, rfl,
    record_status_monotonic.2.2.1 [confirmedRecordW] 1 PayStatus.pending
      confirmedRecordW rfl rfl⟩

/-- One retryable failure never pushes the attempt counter past the
cap. -/
theorem onRetryableFailure_attempts_le (c : RetryChain)
    (h : c.attempts ≤ MAX_ATTEMPTS) :
    (onRetryableFailure c).attempts ≤ MAX_ATTEMPTS := by
  unfold onRetryableFailure
  split
  · exact h
  · split
    · simp only [RetryChain.mk.injEq]
      omega
    · simpa using h

/-- A chain flagged `needs_review` is a fixed point of the retry
step, hence stays fixed under any number of further steps. -/
theorem onRetryableFailure_fixed (c : RetryChain) (h : c.needs_review = true) :
    ∀ n, onRetryableFailure^[n] c = c := by
  intro n
  induction n with
  | zero => rfl
  | succ k ih => rw [Function.iterate_succ_apply, onRetryableFailure, if_pos h, ih]

/-- C4: starting from the original attempt, the attempt counter of a
chain never exceeds `MAX_ATTEMPTS` (so at most `MAX_ATTEMPTS` fresh
`pending` records are ever spawned), a chain flagged `needs_review`
is never retried again, after `MAX_ATTEMPTS` consecutive retryable
failures the chain is flagged `needs_review` and every later state
equals that flagged state; at store level, `spawnRetry` refuses to
spawn once the attempt counter reached the cap. -/
theorem retry_cap_never_exceeded :
    (∀ n, (onRetryableFailure^[n] initialChain).attempts ≤ MAX_ATTEMPTS) ∧
    (∀ c, c.needs_review = true → onRetryableFailure c = c) ∧
    (onRetryableFailure^[MAX_ATTEMPTS] initialChain).needs_review = true ∧
    (∀ n, onRetryableFailure^[MAX_ATTEMPTS + n] initialChain =
      onRetryableFailure^[MAX_ATTEMPTS] initialChain) ∧
    (∀ l rid newId r, findRecord l rid = some r →
      MAX_ATTEMPTS ≤ r.attempt_count →
      spawnRetry l rid newId = (some .retryCapExceeded, l)) := by
  refine ⟨?_, ?_, ?_, ?_, ?_⟩
  · intro n
    induction n with
    | zero => decide
    | succ k ih =>
      rw [Function.iterate_succ_apply']
      exact onRetryableFailure_attempts_le _ ih
  · intro c h
    simp [onRetryableFailure, h]
  · decide
  · intro n
    rw [Nat.add_comm, Function.iterate_add_apply]
    exact onRetryableFailure_fixed _ (by decide) n
  · intro l rid newId r hf hc
    have hno : ¬(r.status = PayStatus.failed ∧ r.attempt_count < MAX_ATTEMPTS) :=
      fun h => absurd h.2 (by omega)
    simp [spawnRetry, hf, hno]

/-- Witness for C4: a concrete record at the cap is refused a retry,
and five retryable failures flag the chain. -/
theorem retry_cap_never_exceeded_witness :
    findRecord [exhaustedRecordW] 2 = some exhaustedRecordW ∧
    MAX_ATTEMPTS ≤ exhaustedRecordW.attempt_count ∧
    spawnRetry [exhaustedRecordW] 2 3 =
      (some LedgerError.retryCapExceeded, [exhaustedRecordW]) ∧
    (onRetryableFailure^[MAX_ATTEMPTS] initialChain).needs_review = true :=
  ⟨rfl, by decide,
    retry_cap_never_exceeded.2.2.2.2 [exhaustedRecordW] 2 3 exhaustedRecordW rfl
      (by decide),
    retry_cap_never_exceeded.2.2.1⟩

/-- Every step of the lease relation preserves per-record lease
exclusivity. -/
theorem leaseStep_preserves {s s₂ : LeaseState} (hstep : LeaseStep s s₂)
    (hinv : leaseExclusive s) : leaseExclusive s₂ := by
  cases hstep with
  | acquire rid holder ttl httl hfree =>
    refine List.Pairwise.cons ?_ ?_
    · intro b hb hrec hlive
      have hexp : b.expires_at ≤ s.now := hfree b hb hrec.symm
      have : s.now < b.expires_at := hlive.2
      omega
    · exact hinv
  | release rid holder =>
    exact List.Pairwise.sublist (List.filter_sublist _) hinv
  | tick dt =>
    refine hinv.imp ?_
    intro a b hab hrec hlive
    refine hab hrec ⟨?_, ?_⟩
    · have : s.now + dt < a.expires_at := hlive.1
      unfold liveAt
      omega
    · have : s.now + dt < b.expires_at := hlive.2
      unfold liveAt
      omega

/-- Lease exclusivity holds in every state reachable from the empty
store. -/
theorem leaseExclusive_reachable {s : LeaseState}
    (h : Relation.ReflTransGen LeaseStep initLeaseState s) : leaseExclusive s := by
  induction h with
  | refl => exact List.Pairwise.nil
  | tail _ hstep ih => exact leaseStep_preserves hstep ih

/-- C2: in every state of the lease store reachable by the
acquisition/release/clock step relation, no two distinct workers
simultaneously hold live (unexpired) leases on the same `record_id`. -/
theorem lease_mutual_exclusion (s : LeaseState)
    (h : Relation.ReflTransGen LeaseStep initLeaseState s) :
    ∀ a ∈ s.leases, ∀ b ∈ s.leases, a.holder_id ≠ b.holder_id →
      a.record_id = b.record_id → ¬(liveAt s.now a ∧ liveAt s.now b) := by
  intro a ha b hb hh hrec
  have hsym : Symmetric (fun a b : ReconciliationLease =>
      a.record_id = b.record_id → ¬(liveAt s.now a ∧ liveAt s.now b)) := by
    intro x y hxy hr hl
    exact hxy hr.symm ⟨hl.2, hl.1⟩
  have hne : a ≠ b := fun hab => hh (by rw [hab])
  exact (leaseExclusive_reachable h).forall hsym ha hb hne hrec

/-- The C2 witness state is reachable: worker 7 acquires record 1 at
time 0 with TTL 60, the clock advances to 100 (the lease expires),
then worker 8 acquires record 1 with TTL 60. -/
theorem leaseReachW : Relation.ReflTransGen LeaseStep initLeaseState leaseStateW := by
  have h1 : LeaseStep initLeaseState ⟨0, [⟨1, 7, 60⟩]⟩ :=
    LeaseStep.acquire initLeaseState 1 7 60 (by decide)
      (by intro l hl; simp [initLeaseState] at hl)
  have h2 : LeaseStep ⟨0, [⟨1, 7, 60⟩]⟩ ⟨100, [⟨1, 7, 60⟩]⟩ :=
    LeaseStep.tick ⟨0, [⟨1, 7, 60⟩]⟩ 100
  have h3 : LeaseStep ⟨100, [⟨1, 7, 60⟩]⟩ leaseStateW :=
    LeaseStep.acquire ⟨100, [⟨1, 7, 60⟩]⟩ 1 8 60 (by decide) (by decide)
  exact ((Relation.ReflTransGen.single h1).tail h2).tail h3

/-- Witness for C2 at the concrete reachable state `leaseStateW`. -/
theorem lease_mutual_exclusion_witness :
    leaseW2 ∈ leaseStateW.leases ∧ leaseW1 ∈ leaseStateW.leases ∧
    leaseW2.holder_id ≠ leaseW1.holder_id ∧ leaseW2.record_id = leaseW1.record_id ∧
    ¬(liveAt leaseStateW.now leaseW2 ∧ liveAt leaseStateW.now leaseW1) :=
  ⟨by decide, by decide, by decide, rfl,
    lease_mutual_exclusion leaseStateW leaseReachW leaseW2 (by decide) leaseW1
      (by decide) (by decide) rfl⟩

/-- Folding the signed amounts from any starting balance adds their
sum. -/
theorem foldl_add_signedAmount (l : List PaymentRecord) (b : Int) :
    l.foldl (fun a r => a + signedAmount r) b = b + (l.map signedAmount).sum := by
  induction l generalizing b with
  | nil => simp
  | cons r t ih => simp [List.foldl_cons, ih, add_assoc]

/-- The arrival-order balance is the sum of the signed confirmed
amounts. -/
theorem confirmedBalance_eq_sum (aid : Nat) (l : List PaymentRecord) :
    confirmedBalance aid l = ((l.filter (isConfirmedFor aid)).map signedAmount).sum := by
  unfold confirmedBalance
  rw [foldl_add_signedAmount]
  simp

/-- The confirmed balance splits into confirmed deposits minus
confirmed withdrawals. -/
theorem confirmedBalance_formula (aid : Nat) (l : List PaymentRecord) :
    confirmedBalance aid l =
      sumConfirmedDeposits aid l - sumConfirmedWithdrawals aid l := by
  rw [confirmedBalance_eq_sum]
  unfold sumConfirmedDeposits sumConfirmedWithdrawals
  induction l with
  | nil => simp
  | cons r t ih =>
    by_cases hc : isConfirmedFor aid r = true
    · cases hd : r.direction with
      | deposit =>
        simp only [List.filter_cons, hc, hd, signedAmount]
        simp only [List.filter_cons, hd] at ih ⊢
        simp [hc, hd, signedAmount, ih]
        ring
      | withdrawal =>
        simp [List.filter_cons, hc, hd, signedAmount, ih]
        ring
    · simp [List.filter_cons, hc, ih]

/-- C3: for every agreement, the balance obtained by applying the
confirmed records in arrival order equals the sum of confirmed
deposit amounts minus the sum of confirmed withdrawal amounts, the
result is the same for every arrival order (any permutation of the
records), and applying two records commutes. -/
theorem agreement_balance_commutes (aid : Nat) (l l₂ : List PaymentRecord)
    (h : l.Perm l₂) :
    confirmedBalance aid l =
      sumConfirmedDeposits aid l - sumConfirmedWithdrawals aid l ∧
    confirmedBalance aid l = confirmedBalance aid l₂ ∧
    ∀ (b : Int) (r₁ r₂ : PaymentRecord),
      b + signedAmount r₁ + signedAmount r₂ =
        b + signedAmount r₂ + signedAmount r₁ := by
  refine ⟨confirmedBalance_formula aid l, ?_, ?_⟩
  · rw [confirmedBalance_eq_sum, confirmedBalance_eq_sum]
    exact List.Perm.sum_eq (List.Perm.map _ (List.Perm.filter _ h))
  · intro b r₁ r₂
    ring

/-- Witness for C3: a concrete deposit/withdrawal pair yields the
same balance in both arrival orders, and the balance evaluates to
1000 − 400. -/
theorem agreement_balance_commutes_witness :
    ([confirmedRecordW, withdrawRecordW] : List PaymentRecord).Perm
      [withdrawRecordW, confirmedRecordW] ∧
    confirmedBalance 1 [confirmedRecordW, withdrawRecordW] =
      confirmedBalance 1 [withdrawRecordW, confirmedRecordW] ∧
    confirmedBalance 1 [confirmedRecordW, withdrawRecordW] = 600 :=
  ⟨List.Perm.swap withdrawRecordW confirmedRecordW [],
    (agreement_balance_commutes 1 [confirmedRecordW, withdrawRecordW]
      [withdrawRecordW, confirmedRecordW]
      (List.Perm.swap withdrawRecordW confirmedRecordW [])).2.1,
    by decide⟩

/-- Comparing a nullable column against a null literal with SQL
equality never matches. -/
theorem sqlEq_none_right {α : Type} [BEq α] (x : Option α) : sqlEq x none = false := by
  cases x <;> rfl

/-- The unread-count query returns a count of zero on every database,
for every conversation and user. -/
theorem unreadCountQuery_eq_zero (db : Db) (convId : Nat) (uid : String) :
    unreadCountQuery db convId uid = some 0 := by
  unfold unreadCountQuery
  have hnil : db.messages.filter (fun m =>
      m.conversation_id == convId && sqlEq m.read_at none && m.sender_id != uid) = [] := by
    apply List.filter_eq_nil_iff.mpr
    intro m _
    simp [sqlEq_none_right]
  rw [hnil]
  rfl

/-- The preview list of an authenticated response is either empty or
exactly the mapped conversations query. -/
theorem previews_cases (uid : String) (lp : Option String) (db : Db) :
    previewsOf (GETConversations (some uid) lp db).1 = [] ∨
    previewsOf (GETConversations (some uid) lp db).1 =
      (conversationsQuery db
        ((db.conversation_participants.filter (fun p => p.user_id == uid)).map
          (fun p => p.conversation_id)) (limitOfCode lp)).map (buildPreview db uid) := by
  by_cases h : (db.conversation_participants.filter (fun p => p.user_id == uid)).isEmpty
  · left
    simp [GETConversations, previewsOf, h]
  · right
    simp [GETConversations, previewsOf, h]

/-- C8: in every authenticated response, every conversation preview
carries `unread_count = 0`, whatever the messages' `read_at` values,
because the unread query compares `read_at` with SQL equality against
null (never matching) and the null-safe coalesce yields 0. -/
theorem unread_count_always_zero (uid : String) (lp : Option String) (db : Db) :
    (∀ p ∈ previewsOf (GETConversations (some uid) lp db).1, p.unread_count = 0) ∧
    (∀ convId, unreadCountQuery db convId uid = some 0) := by
  refine ⟨?_, fun convId => unreadCountQuery_eq_zero db convId uid⟩
  intro p hp
  rcases previews_cases uid lp db with hc | hc
  · rw [hc] at hp
    exact absurd hp (List.not_mem_nil p)
  · rw [hc] at hp
    rcases List.mem_map.mp hp with ⟨c, _, rfl⟩
    simp [buildPreview, unreadCountQuery_eq_zero]

/-- Witness for C8: in the concrete database an unread message (null
`read_at`, other sender) exists, yet the preview reports zero. -/
theorem unread_count_always_zero_witness :
    buildPreview dbW "alice" ⟨10, 0, 5⟩ ∈
      previewsOf (GETConversations (some "alice") none dbW).1 ∧
    (buildPreview dbW "alice" ⟨10, 0, 5⟩).unread_count = 0 ∧
    (dbW.messages.filter (fun m => m.read_at.isNone && m.sender_id != "alice")).length = 1 :=
  ⟨by decide, (unread_count_always_zero "alice" none dbW).1 _ (by decide), by decide⟩

/-- C9: an unauthenticated request is answered with the 401
`UNAUTHORIZED` error, message "Authentication required.", before any
table is queried (empty query trace); an authenticated user with no
participation rows receives a success response with the empty list. -/
theorem conversations_auth_guard (lp : Option String) (db : Db) (uid : String) :
    GETConversations none lp db =
      (ApiResponse.error "Authentication required." 401 "UNAUTHORIZED", []) ∧
    (db.conversation_participants.filter (fun p => p.user_id == uid) = [] →
      GETConversations (some uid) lp db =
        (ApiResponse.success [], ["conversation_participants"])) := by
  refine ⟨rfl, ?_⟩
  intro h
  simp [GETConversations, h]

/-- Witness for C9: concrete unauthenticated request, and a concrete
user with no participations. -/
theorem conversations_auth_guard_witness :
    GETConversations none none dbW =
      (ApiResponse.error "Authentication required." 401 "UNAUTHORIZED", []) ∧
    dbW.conversation_participants.filter (fun p => p.user_id == "carol") = [] ∧
    GETConversations (some "carol") none dbW =
      (ApiResponse.success [], ["conversation_participants"]) :=
  ⟨(conversations_auth_guard none dbW "carol").1, by decide,
    (conversations_auth_guard none dbW "carol").2 (by decide)⟩

/-- The conversations query is sorted by `updated_at` descending. -/
theorem conversationsQuery_sorted (db : Db) (ids : List Nat) (lim : Option Int) :
    List.Pairwise byUpdatedDesc (conversationsQuery db ids lim) := by
  have hs : List.Pairwise byUpdatedDesc
      (List.insertionSort byUpdatedDesc
        (db.conversations.filter (fun c => ids.contains c.id))) :=
    List.sorted_insertionSort byUpdatedDesc _
  unfold conversationsQuery applyLimit
  cases lim with
  | none => exact hs
  | some n => exact List.Pairwise.sublist (List.take_sublist _ _) hs

/-- The conversations query returns at most the limit. -/
theorem conversationsQuery_length (db : Db) (ids : List Nat) (n : Int) :
    (conversationsQuery db ids (some n)).length ≤ n.toNat := by
  unfold conversationsQuery applyLimit
  exact List.length_take_le n.toNat _

/-- Everything the conversations query returns is a stored
conversation whose id was asked for. -/
theorem conversationsQuery_mem {db : Db} {ids : List Nat} {lim : Option Int}
    {c : ConversationRow} (hc : c ∈ conversationsQuery db ids lim) :
    c ∈ db.conversations ∧ c.id ∈ ids := by
  have hmem : c ∈ List.insertionSort byUpdatedDesc
      (db.conversations.filter (fun c => ids.contains c.id)) := by
    unfold conversationsQuery applyLimit at hc
    cases lim with
    | none => exact hc
    | some n => exact List.take_subset _ _ hc
  have hf : c ∈ db.conversations.filter (fun c => ids.contains c.id) :=
    (List.perm_insertionSort byUpdatedDesc _).mem_iff.mp hmem
  have h2 := List.mem_filter.mp hf
  exact ⟨h2.1, by simpa using h2.2⟩

/-- C10 (amended): with the parsed limit `n ≥ 0` — `parseInt(·, 10)`
of the `limit` parameter when present and non-empty, 50 when absent
or empty — the previews of an authenticated response are ordered by
`updated_at` descending, number at most `n`, and belong only to
conversations the requesting user participates in. -/
theorem conversations_order_limit_scope (uid : String) (lp : Option String)
    (db : Db) (n : Int) (hn : limitOfCode lp = some n) (_hnn : 0 ≤ n) :
    List.Pairwise (fun a b : ConversationPreview => b.updated_at ≤ a.updated_at)
      (previewsOf (GETConversations (some uid) lp db).1) ∧
    (previewsOf (GETConversations (some uid) lp db).1).length ≤ n.toNat ∧
    (∀ p ∈ previewsOf (GETConversations (some uid) lp db).1,
      ∃ q ∈ db.conversation_participants, q.user_id = uid ∧ q.conversation_id = p.id) := by
  rcases previews_cases uid lp db with hc | hc <;> rw [hc]
  · exact ⟨List.Pairwise.nil, by simp, by simp⟩
  · refine ⟨?_, ?_, ?_⟩
    · refine List.Pairwise.map _ ?_ (conversationsQuery_sorted db _ (limitOfCode lp))
      intro a b hab
      exact hab
    · rw [List.length_map, hn]
      exact conversationsQuery_length db _ n
    · intro p hp
      rcases List.mem_map.mp hp with ⟨c, hcq, rfl⟩
      rcases conversationsQuery_mem hcq with ⟨_, hid⟩
      rcases List.mem_map.mp hid with ⟨q, hq, hqe⟩
      have hqf := List.mem_filter.mp hq
      refine ⟨q, hqf.1, ?_, ?_⟩
      · simpa using hqf.2
      · simpa [buildPreview] using hqe

/-- C10 counterexample: for the request `?limit=` the parameter is
present with the empty string as value; the code takes the default 50
(the empty string is falsy), while `parseInt("", 10)` is `NaN`, so
the claimed limit semantics disagrees with the code there. -/
theorem limit_empty_param_flaw :
    limitOfCode (some "") = some 50 ∧ limitOfClaim (some "") = none ∧
    limitOfCode (some "") ≠ limitOfClaim (some "") :=
  ⟨rfl, rfl, by decide⟩

/-- Witness for C10 at a concrete parsed limit of 1. -/
theorem conversations_order_limit_scope_witness :
    limitOfCode (some "1") = some 1 ∧ (0 : Int) ≤ 1 ∧
    (previewsOf (GETConversations (some "alice") (some "1") dbW).1).length ≤
      (1 : Int).toNat :=
  ⟨by decide, by decide,
    (conversations_order_limit_scope "alice" (some "1") dbW 1 (by decide) (by decide)).2.1⟩

/-- Witness for C6 at the concrete scenario contract. -/
theorem withdraw_full_balance_witness :
    scenarioContract.status = ContractStatus.active ∧
    (((withdraw scenarioContract scenarioContract.landlord).1 = none ∧
      (withdraw scenarioContract scenarioContract.landlord).2.1 = get_balance scenarioContract ∧
      get_balance (withdraw scenarioContract scenarioContract.landlord).2.2 = 0) ∧
     (get_balance (deposit scenarioContract "tenant" 1000).2 = 1000 ∧
      get_balance (withdraw (deposit scenarioContract "tenant" 1000).2 "landlord").2.2 = 0)) :=
  ⟨rfl, withdraw_full_balance scenarioContract rfl⟩

end PayEasy
